import Mathlib

/-!
Shallow embedding of the authentication core of the go-shop user-service
(`services/user-service/internal/...`): the password value object, the
domain-error taxonomy and `MapError`, the JWT token service, the postgres
user repository, the login/register use cases and the connect handlers.

Conventions of the embedding:
* Go `error` values are the inductive `GoErr`; a `nil` error is `none` /
  `Except.ok`.  The Go type assertion `err.(DomainError)` inspects the
  dynamic type only and never unwraps, which `isDomainError` mirrors.
* Go byte slices are `List Nat`; unix times are `Nat` nanoseconds and
  `time.Duration` values are `Nat` nanoseconds (all time values the
  program builds come from `time.Now()` and positive literals).
* The bcrypt library (golang.org/x/crypto/bcrypt) is modelled as an
  ideal primitive: `GoStr` distinguishes a plain Go string from the
  string produced by `bcrypt.GenerateFromPassword`, which records the
  cost, the random salt and the hashed password.  `CompareHashAndPassword`
  recomputes and compares, failing on an input that is not a bcrypt hash
  (crypto/bcrypt: hashedSecret too short / invalid prefix).
* The JWT library (golang-jwt/jwt/v5) is modelled with an ideal HMAC:
  a signature verifies exactly when it was produced over the same
  payload with the same algorithm and secret.  The v5 parser order is
  kept: structure, keyfunc, signature, then claim validation (exp, nbf,
  zero leeway), and every parser failure is returned as a library error
  built by `newError` (a `fmt.Errorf` wrap), which does not implement
  the `DomainError` interface.
-/

namespace GoShop

/-- Codes of connectrpc.com/connect (connect.Code). -/
inductive ConnectCode
  | canceled
  | unknown
  | invalidArgument
  | deadlineExceeded
  | notFound
  | alreadyExists
  | permissionDenied
  | resourceExhausted
  | failedPrecondition
  | aborted
  | outOfRange
  | unimplemented
  | internal
  | unavailable
  | dataLoss
  | unauthenticated
deriving DecidableEq

/-- A Go string, distinguishing plain strings from the output of
`bcrypt.GenerateFromPassword` (ideal-primitive model of the bcrypt
encoding `$2a$cost$saltdigest`). -/
inductive GoStr
  | raw (s : String)
  | bcryptHash (cost salt : Nat) (pw : GoStr)
deriving DecidableEq

/-- Byte length of the underlying Go string (Go `len`).  A bcrypt
hash string is 60 bytes long. -/
def goStrLen : GoStr → Nat
  | .raw s => s.utf8ByteSize
  | .bcryptHash _ _ _ => 60

/-- Errors of golang.org/x/crypto/bcrypt relevant to this code base. -/
inductive BcryptErr
  | mismatch
  | notBcryptHash
deriving DecidableEq

/-- bcrypt.DefaultCost. -/
def bcryptDefaultCost : Nat := 10

/-- bcrypt.GenerateFromPassword: a fresh random salt is drawn per call;
the salt is passed explicitly here.  With `bcrypt.DefaultCost` the call
cannot fail. -/
def bcryptGenerateFromPassword (pw : GoStr) (cost salt : Nat) : GoStr :=
  .bcryptHash cost salt pw

/-- bcrypt.CompareHashAndPassword(hashedPassword, password): decodes the
first argument as a bcrypt hash (failing when it is not one), then
recomputes and compares the digest in constant time. -/
def bcryptCompareHashAndPassword (hashed pw : GoStr) : Option BcryptErr :=
  match hashed with
  | .bcryptHash _ _ p => if p = pw then none else some .mismatch
  | .raw _ => some .notBcryptHash

/-- Kinds of golang-jwt/jwt/v5 sentinel errors used by the parser. -/
inductive JwtErrKind
  | tokenMalformed
  | tokenUnverifiable
  | tokenSignatureInvalid
  | tokenInvalidClaims
  | tokenExpired
  | tokenNotValidYet
deriving DecidableEq

/-- A Go error value as it flows through this program.  Only the
`domain` constructor corresponds to a dynamic type implementing the
`DomainError` interface of `internal/domain/domain_errors`. -/
inductive GoErr
  | domain (code : ConnectCode) (msg : String)
  | errorsNew (msg : String)
  | bcrypt (e : BcryptErr)
  | pg (code : String) (msg : String)
  | jwtErr (kind : JwtErrKind)
  | jwtWrap (kind : JwtErrKind) (inner : GoErr)
deriving DecidableEq

/-- The `Error()` string of an error value (only the parts this code
interpolates into wrapper messages). -/
def goErrMsg : GoErr → String
  | .domain _ msg => msg
  | .errorsNew msg => msg
  | .bcrypt .mismatch => "crypto/bcrypt: hashedPassword is not the hash of the given password"
  | .bcrypt .notBcryptHash => "crypto/bcrypt: hashedSecret too short to be a bcryptedPassword"
  | .pg _ msg => msg
  | .jwtErr _ => "token error"
  | .jwtWrap _ _ => "token error"

/-- The Go type assertion `err.(DomainError)`: true exactly when the
dynamic type is `*domainError`.  `fmt.Errorf`-wrapped errors (the jwt
parser output) do not satisfy it even when they wrap a domain error. -/
def isDomainError : GoErr → Bool
  | .domain _ _ => true
  | _ => false

/-- connect.NewError(code, err) as far as the code under test observes
it: the code together with the wrapped cause. -/
structure ConnectError where
  code : ConnectCode
  cause : GoErr
deriving DecidableEq

/-- domain_errors.MapError: a domain error keeps its own code, every
other error becomes CodeInternal. -/
def MapError (err : GoErr) : ConnectError :=
  match err with
  | .domain c msg => ⟨c, .domain c msg⟩
  | e => ⟨.internal, e⟩

/-- domain_errors.NewNotFoundError. -/
def NewNotFoundError (msg : String) : GoErr := .domain .notFound msg

/-- domain_errors.NewAlreadyExistsError. -/
def NewAlreadyExistsError (msg : String) : GoErr := .domain .alreadyExists msg

/-- domain_errors.NewUnauthorizedError. -/
def NewUnauthorizedError (msg : String) : GoErr := .domain .unauthenticated msg

/-- domain_errors.NewInvalidData. -/
def NewInvalidData (msg : String) : GoErr := .domain .invalidArgument msg

/-- domain_errors.NewInternalError. -/
def NewInternalError (msg : String) : GoErr := .domain .internal msg

/-- The five-way classification the spec calls the error taxonomy. -/
def taxonomyCodes : List ConnectCode :=
  [.notFound, .alreadyExists, .unauthenticated, .invalidArgument, .internal]

/-- The domain errors this program ever constructs: exactly the values
of the five constructor functions in domain_errors/errors.go. -/
def constructedDomainError (e : GoErr) : Prop :=
  ∃ msg, e = NewNotFoundError msg ∨ e = NewAlreadyExistsError msg ∨
    e = NewUnauthorizedError msg ∨ e = NewInvalidData msg ∨ e = NewInternalError msg

/-- valueObject/password.go Password.Validate. -/
def PasswordValidate (p : GoStr) : Option GoErr :=
  if goStrLen p < 8 then some (.errorsNew "password must be at least 8 characters long")
  else none

/-- valueObject/password.go Password.Hash: bcrypt.GenerateFromPassword
with bcrypt.DefaultCost; the salt drawn by the library is explicit. -/
def PasswordHash (p : GoStr) (salt : Nat) : GoStr × Option GoErr :=
  (bcryptGenerateFromPassword p bcryptDefaultCost salt, none)

/-- valueObject/password.go Password.CompareHash: the receiver `p` is
passed to bcrypt as the password and the argument `hash` as the hashed
password. -/
def PasswordCompareHash (p hash : GoStr) : Option GoErr :=
  (bcryptCompareHashAndPassword hash p).map .bcrypt

/-- valueObject/phone.go Phone.Validate. -/
def PhoneValidate (p : String) : Option GoErr :=
  if p = "" then none
  else if p.utf8ByteSize < 10 ∨ p.utf8ByteSize > 15 then
    some (.errorsNew "phone number must be between 10 and 15 characters long")
  else none

/-- entity/user.go User. -/
structure User where
  ID : String
  FirstName : String
  LastName : String
  Email : String
  Phone : String
  Password : GoStr
  CreatedAt : Nat
  UpdatedAt : Nat
deriving DecidableEq

/-- A Go byte slice, for the HMAC secrets. -/
abbrev GoBytes := List Nat

/-- Nanoseconds per second; Go `time.Duration` counts nanoseconds. -/
def nsPerSec : Nat := 1000000000

/-- Whole seconds of a `time.Duration` d, truncated: the Go
expression `int64(d.Seconds())`. -/
def durationWholeSeconds (d : Nat) : Nat := d / nsPerSec

/-- JWT signing algorithms distinguished by this code: the HMAC family
and representatives of the non-HMAC methods a hostile token can
declare. -/
inductive JwtAlg
  | HS256
  | HS384
  | HS512
  | RS256
  | algNone
deriving DecidableEq

/-- The Go type switch `token.Method.(*jwt.SigningMethodHMAC)`. -/
def JwtAlg.isHMAC : JwtAlg → Bool
  | .HS256 => true
  | .HS384 => true
  | .HS512 => true
  | _ => false

/-- The `alg` header value, as interpolated by `%v` into the
unexpected-signing-method message. -/
def jwtAlgName : JwtAlg → String
  | .HS256 => "HS256"
  | .HS384 => "HS384"
  | .HS512 => "HS512"
  | .RS256 => "RS256"
  | .algNone => "none"

/-- The claim set serialized by customClaims: the embedded
service.TokenClaims fields plus the jwt.RegisteredClaims fields.
NumericDate values are stored at second precision (jwt.TimePrecision),
as whole unix seconds. -/
structure JwtPayload where
  UserID : String
  TokenID : String
  Issuer : String
  Subject : String
  ExpiresAt : Nat
  NotBefore : Nat
  IssuedAt : Nat
  ID : String
deriving DecidableEq

/-- An HMAC signature, idealized: the MAC value determines (and is
determined by) the algorithm, the secret and the signed payload; any
other byte string (a flipped byte, a signature made with another
secret over other data) is `other`. -/
inductive JwtSig
  | hmac (alg : JwtAlg) (secret : GoBytes) (payload : JwtPayload)
  | other (n : Nat)
deriving DecidableEq

/-- A compact JWT: header (signing algorithm), claims, signature. -/
structure JwtToken where
  alg : JwtAlg
  payload : JwtPayload
  sig : JwtSig
deriving DecidableEq

/-- A Go string holding a candidate token: either the serialization of
a JWT (serialization is injective and inverted by the parser) or a
string that is not a three-part JWT at all. -/
inductive TokenString
  | wellFormed (t : JwtToken)
  | malformed (s : String)
deriving DecidableEq

/-- service/auth_service.go TokenClaims. -/
structure TokenClaims where
  UserID : String
  TokenID : String
deriving DecidableEq

/-- service/auth_service.go TokenPairs. -/
structure TokenPairs where
  AccessToken : TokenString
  RefreshToken : TokenString
  ExpiresIn : Nat
deriving DecidableEq

/-- infrastructure/auth JWTService: construction-time configuration.
Lifetimes are `time.Duration`, i.e. nanoseconds. -/
structure JWTService where
  accessSecret : GoBytes
  refreshSecret : GoBytes
  accessExpiresIn : Nat
  refreshExpiresIn : Nat
deriving DecidableEq

/-- jwt.NewNumericDate over a time in nanoseconds: second precision. -/
def numericDate (t : Nat) : Nat := t / nsPerSec

/-- JWTService.signToken: builds customClaims — TokenClaims with only
UserID set (TokenID is left at its zero value ""), RegisteredClaims
with issuer "UserService", empty subject/audience, exp/nbf/iat from the
shared creation time, and a fresh `utils.NewUUID()` as the registered
ID (jti), passed in as `jti` — then signs with HS256 and the given
secret.  `createTime`/`expiresIn` are nanoseconds. -/
def signToken (user : User) (createTime : Nat) (secret : GoBytes) (expiresIn : Nat)
    (jti : String) : TokenString :=
  let payload : JwtPayload :=
    { UserID := user.ID
      TokenID := ""
      Issuer := "UserService"
      Subject := ""
      ExpiresAt := numericDate (createTime + expiresIn)
      NotBefore := numericDate createTime
      IssuedAt := numericDate createTime
      ID := jti }
  .wellFormed ⟨.HS256, payload, .hmac .HS256 secret payload⟩

/-- JWTService.GenerateToken: one shared creation timestamp, an access
token signed with the access secret and the access lifetime, a refresh
token with the refresh secret and lifetime, and
`ExpiresIn = int64(accessExpiresIn.Seconds())`.  The fresh UUIDs drawn
inside the two signToken calls are the explicit `jtiAccess`,
`jtiRefresh`. -/
def GenerateToken (j : JWTService) (user : User) (createTime : Nat)
    (jtiAccess jtiRefresh : String) : Except GoErr TokenPairs :=
  .ok
    { AccessToken := signToken user createTime j.accessSecret j.accessExpiresIn jtiAccess
      RefreshToken := signToken user createTime j.refreshSecret j.refreshExpiresIn jtiRefresh
      ExpiresIn := durationWholeSeconds j.accessExpiresIn }

/-- The keyfunc closure inside JWTService.ValidateToken: reject a
token whose method is not `*jwt.SigningMethodHMAC` with
`domain_error.NewInvalidData("unexpected signing method: <alg>")`,
otherwise hand back the caller-supplied secret. -/
def jwtKeyfunc (tok : JwtToken) (secret : GoBytes) : Except GoErr GoBytes :=
  if tok.alg.isHMAC then .ok secret
  else .error (NewInvalidData ("unexpected signing method: " ++ jwtAlgName tok.alg))

/-- jwt.ParseWithClaims of golang-jwt/jwt/v5, at the moment `now`
(nanoseconds): structural parse, then the keyfunc (whose error is
wrapped in ErrTokenUnverifiable by `newError`, a fmt.Errorf wrap that
does not implement DomainError), then signature verification with the
returned secret, then claim validation with zero leeway — expired when
`now` is not before the second-precision exp, not yet valid when `now`
is before nbf.  On success the parsed token is returned with
`token.Valid = true`. -/
def jwtParseWithClaims (ts : TokenString) (secret : GoBytes) (now : Nat) :
    Except GoErr (JwtToken × Bool) :=
  match ts with
  | .malformed _ => .error (.jwtErr .tokenMalformed)
  | .wellFormed tok =>
    match jwtKeyfunc tok secret with
    | .error e => .error (.jwtWrap .tokenUnverifiable e)
    | .ok key =>
      if tok.sig = .hmac tok.alg key tok.payload then
        if now < tok.payload.ExpiresAt * nsPerSec then
          if now < tok.payload.NotBefore * nsPerSec then
            .error (.jwtWrap .tokenInvalidClaims (.jwtErr .tokenNotValidYet))
          else
            .ok (tok, true)
        else
          .error (.jwtWrap .tokenInvalidClaims (.jwtErr .tokenExpired))
      else
        .error (.jwtErr .tokenSignatureInvalid)

/-- JWTService.ValidateToken: parse with the keyfunc above; propagate
any parse error unchanged; on success return the embedded TokenClaims
when the claims assert to *customClaims and the token is valid,
otherwise NewInvalidData (unreachable after an error-free parse). -/
def ValidateToken (ts : TokenString) (secret : GoBytes) (now : Nat) :
    Except GoErr TokenClaims :=
  match jwtParseWithClaims ts secret now with
  | .error e => .error e
  | .ok (tok, valid) =>
    if valid then .ok ⟨tok.payload.UserID, tok.payload.TokenID⟩
    else .error (NewInvalidData "invalid token claims or token is not valid")

/-- entity/user.go UserFromDatabase: rebuilds the entity from a stored
row; the stored password column holds the persisted credential. -/
def UserFromDatabase (id firstName lastName email phone : String) (password : GoStr)
    (createdAt updatedAt : Nat) : User :=
  { ID := id, FirstName := firstName, LastName := lastName, Email := email,
    Phone := phone, Password := password, CreatedAt := createdAt, UpdatedAt := updatedAt }

/-- entity/user.go User.Validate: email, then password, then phone;
the first failure is returned.  `mailParseAddress` stands for the Go
standard library `net/mail.ParseAddress` (external to the repository),
returning `none` on a parseable address and the parser error
otherwise. -/
def userValidate (mailParseAddress : String → Option GoErr) (u : User) : Option GoErr :=
  match mailParseAddress u.Email with
  | some e => some e
  | none =>
    match PasswordValidate u.Password with
    | some e => some e
    | none => PhoneValidate u.Phone

/-- entity/user.go NewUser: build the entity with a fresh
`utils.NewUUID()` (explicit `uuid`) and `utils.TimeNow()` (explicit
`now`), then validate. -/
def NewUser (mailParseAddress : String → Option GoErr)
    (firstName lastName email phone password : String) (uuid : String) (now : Nat) :
    Except GoErr User :=
  let user : User :=
    { ID := uuid, FirstName := firstName, LastName := lastName, Email := email,
      Phone := phone, Password := .raw password, CreatedAt := now, UpdatedAt := now }
  match userValidate mailParseAddress user with
  | some e => .error e
  | none => .ok user

/-- A row of the `users` table (part_009 schema: email UNIQUE). -/
structure DbUser where
  id : String
  firstName : String
  lastName : String
  email : String
  phone : String
  password : GoStr
  createdAt : Nat
  updatedAt : Nat
deriving DecidableEq

/-- The database state: the rows of the `users` table. -/
abbrev Db := List DbUser

/-- sqlc Queries.GetUserByEmail: `SELECT * FROM users WHERE email = $1`
via pgx; an empty result is pgx.ErrNoRows
(`errors.New("no rows in result set")`). -/
def queriesGetUserByEmail (db : Db) (email : String) : Except GoErr DbUser :=
  match db.find? (fun u => u.email = email) with
  | some u => .ok u
  | none => .error (.errorsNew "no rows in result set")

/-- The values inserted by sqlc Queries.InsertUser. -/
structure InsertUserParams where
  firstName : String
  lastName : String
  email : String
  phone : String
  password : GoStr
  createdAt : Nat
  updatedAt : Nat
deriving DecidableEq

/-- sqlc Queries.InsertUser: the UNIQUE constraint on email makes the
insert fail with a *pgconn.PgError of SQLSTATE 23505 when a row with
the same email exists; otherwise the new row (id drawn by
`gen_random_uuid()`, explicit `newId`) is appended and returned. -/
def queriesInsertUser (db : Db) (p : InsertUserParams) (newId : String) :
    Db × Except GoErr DbUser :=
  if db.any (fun u => u.email = p.email) then
    (db, .error (.pg "23505" "duplicate key value violates unique constraint"))
  else
    let nu : DbUser :=
      { id := newId, firstName := p.firstName, lastName := p.lastName,
        email := p.email, phone := p.phone, password := p.password,
        createdAt := p.createdAt, updatedAt := p.updatedAt }
    (db ++ [nu], .ok nu)

/-- postgres/utils.go isDuplicateKeyError: a *pgconn.PgError with code
23505. -/
def isDuplicateKeyError : GoErr → Bool
  | .pg code _ => code = "23505"
  | _ => false

/-- postgres/user_repository.go UserRepository.GetUserByEmail: any
query error — pgx.ErrNoRows included — is wrapped as
NewInternalError("failed to get user by email: ..."). -/
def repoGetUserByEmail (db : Db) (email : String) : Except GoErr User :=
  match queriesGetUserByEmail db email with
  | .error e => .error (NewInternalError ("failed to get user by email: " ++ goErrMsg e))
  | .ok u =>
    .ok (UserFromDatabase u.id u.firstName u.lastName u.email u.phone u.password
      u.createdAt u.updatedAt)

/-- postgres/user_repository.go UserRepository.CreateUser: scan phone
and the current timestamp (string/time scans that cannot fail), hash
the entity password (the bcrypt salt drawn inside Hash is explicit),
insert; a duplicate-key insert error becomes NewAlreadyExistsError,
any other insert error NewInternalError; on success the returned row
is converted back to an entity. -/
def repoCreateUser (db : Db) (user : User) (salt : Nat) (newId : String) (dbNow : Nat) :
    Db × Except GoErr User :=
  match PasswordHash user.Password salt with
  | (_, some e) =>
    (db, .error (NewInternalError ("failed to hash password: " ++ goErrMsg e)))
  | (hashPassword, none) =>
    match queriesInsertUser db
      { firstName := user.FirstName, lastName := user.LastName, email := user.Email,
        phone := user.Phone, password := hashPassword,
        createdAt := dbNow, updatedAt := dbNow } newId with
    | (db2, .error e) =>
      if isDuplicateKeyError e then
        (db2, .error (NewAlreadyExistsError ("user with email " ++ user.Email ++ " already exists")))
      else
        (db2, .error (NewInternalError ("failed to create user: " ++ goErrMsg e)))
    | (db2, .ok nu) =>
      (db2, .ok (UserFromDatabase nu.id nu.firstName nu.lastName nu.email nu.phone
        nu.password nu.createdAt nu.updatedAt))

/-- usecase/dto RegisterRequest. -/
structure RegisterRequest where
  FirstName : String
  LastName : String
  Email : String
  Phone : String
  Password : String
deriving DecidableEq

/-- usecase/dto LoginRequest. -/
structure LoginRequest where
  Email : String
  Password : String
deriving DecidableEq

/-- usecase/user_usecase.go UserUseCase.RegisterUser: build and
validate the entity, then persist; each error is returned unchanged. -/
def RegisterUser (mailParseAddress : String → Option GoErr) (db : Db)
    (params : RegisterRequest) (uuid : String) (now : Nat) (salt : Nat)
    (newId : String) (dbNow : Nat) : Db × Except GoErr User :=
  match NewUser mailParseAddress params.FirstName params.LastName params.Email
      params.Phone params.Password uuid now with
  | .error e => (db, .error e)
  | .ok newUser => repoCreateUser db newUser salt newId dbNow

/-- usecase/user_usecase.go UserUseCase.Login: look the user up by
email, run `user.Password.CompareHash(params.Password)` — the stored
credential is the receiver and the request plaintext the argument —
then issue the token pair; every error is returned unchanged. -/
def Login (db : Db) (j : JWTService) (params : LoginRequest) (createTime : Nat)
    (jtiAccess jtiRefresh : String) : Except GoErr TokenPairs :=
  match repoGetUserByEmail db params.Email with
  | .error e => .error e
  | .ok user =>
    match PasswordCompareHash user.Password (.raw params.Password) with
    | some e => .error e
    | none => GenerateToken j user createTime jtiAccess jtiRefresh

/-- delivery/connect userv1.LoginResponse. -/
structure LoginResponse where
  AccessToken : TokenString
  RefreshToken : TokenString
  ExpiresIn : Nat
deriving DecidableEq

/-- delivery/connect userServiceHandler.Login: run the use case and
translate a failure with domain_error.MapError — the transport
boundary's only translation step. -/
def handlerLogin (db : Db) (j : JWTService) (params : LoginRequest) (createTime : Nat)
    (jtiAccess jtiRefresh : String) : Except ConnectError LoginResponse :=
  match Login db j params createTime jtiAccess jtiRefresh with
  | .error e => .error (MapError e)
  | .ok ret =>
    .ok { AccessToken := ret.AccessToken, RefreshToken := ret.RefreshToken,
          ExpiresIn := ret.ExpiresIn }

/-- delivery/connect userServiceHandler.Register: run the use case and
translate a failure with domain_error.MapError; on success report
Success = true. -/
def handlerRegister (mailParseAddress : String → Option GoErr) (db : Db)
    (params : RegisterRequest) (uuid : String) (now : Nat) (salt : Nat)
    (newId : String) (dbNow : Nat) : Db × Except ConnectError Bool :=
  match RegisterUser mailParseAddress db params uuid now salt newId dbNow with
  | (db2, .error e) => (db2, .error (MapError e))
  | (db2, .ok _) => (db2, .ok true)

/-! Concrete fixtures: a store holding one registered user whose
persisted credential is the bcrypt hash (cost 10, salt 42) of the
plaintext "password123", and a token service configured with the wired
lifetimes (30 minutes, 7 days, in nanoseconds). -/

/-- A stored row for alice@example.com with credential
bcrypt("password123"). -/
def aliceRow : DbUser :=
  { id := "user-1", firstName := "Alice", lastName := "Liddell",
    email := "alice@example.com", phone := "",
    password := .bcryptHash 10 42 (.raw "password123"),
    createdAt := 0, updatedAt := 0 }

/-- A store holding exactly alice's row. -/
def db1 : Db := [aliceRow]

/-- alice's entity as the repository reconstructs it. -/
def user1 : User :=
  UserFromDatabase "user-1" "Alice" "Liddell" "alice@example.com" ""
    (.bcryptHash 10 42 (.raw "password123")) 0 0

/-- The token service as wired in StartConnect: distinct secrets,
30-minute access lifetime, 7-day refresh lifetime. -/
def jwt1 : JWTService :=
  { accessSecret := [1, 2, 3], refreshSecret := [4, 5, 6],
    accessExpiresIn := 1800000000000, refreshExpiresIn := 604800000000000 }

/-- The registered ID (jti) claim carried inside a token string. -/
def tokenJti : TokenString → Option String
  | .wellFormed t => some t.payload.ID
  | .malformed _ => none

/-- A claim set whose expiry is already in the past at the validation
instants used below. -/
def payloadExpired : JwtPayload :=
  { UserID := "user-1", TokenID := "", Issuer := "UserService", Subject := "",
    ExpiresAt := 0, NotBefore := 0, IssuedAt := 0, ID := "jti-e" }

/-- A claim set that is temporally valid around instant 5. -/
def payloadLive : JwtPayload :=
  { UserID := "user-1", TokenID := "", Issuer := "UserService", Subject := "",
    ExpiresAt := 2000000000, NotBefore := 0, IssuedAt := 0, ID := "jti-l" }

/-! Helper lemmas about the embedded jwt parser. -/

/-- Every error produced by the jwt parser is a library error, not a
value of the domain-error type (the keyfunc's domain error is wrapped
by `newError` and loses the interface). -/
theorem jwtParse_error_not_domain (ts : TokenString) (secret : GoBytes) (now : Nat)
    (e : GoErr) (h : jwtParseWithClaims ts secret now = .error e) :
    isDomainError e = false := by
  unfold jwtParseWithClaims at h
  cases ts with
  | malformed s =>
    injection h with h'
    subst h'; rfl
  | wellFormed tok =>
    cases hk : jwtKeyfunc tok secret with
    | error ke =>
      simp only [hk, Except.error.injEq] at h
      subst h; rfl
    | ok key =>
      simp only [hk] at h
      by_cases hsig : tok.sig = .hmac tok.alg key tok.payload
      · rw [if_pos hsig] at h
        by_cases hexp : now < tok.payload.ExpiresAt * nsPerSec
        · rw [if_pos hexp] at h
          by_cases hnbf : now < tok.payload.NotBefore * nsPerSec
          · rw [if_pos hnbf] at h
            injection h with h'
            subst h'; rfl
          · rw [if_neg hnbf] at h
            exact Except.noConfusion h
        · rw [if_neg hexp] at h
          injection h with h'
          subst h'; rfl
      · rw [if_neg hsig] at h
        injection h with h'
        subst h'; rfl

/-- A successful jwt parse always marks the token valid. -/
theorem jwtParse_ok_valid (ts : TokenString) (secret : GoBytes) (now : Nat)
    (p : JwtToken × Bool) (h : jwtParseWithClaims ts secret now = .ok p) :
    p.2 = true := by
  unfold jwtParseWithClaims at h
  cases ts with
  | malformed s => exact Except.noConfusion h
  | wellFormed tok =>
    cases hk : jwtKeyfunc tok secret with
    | error ke =>
      simp only [hk] at h
      exact Except.noConfusion h
    | ok key =>
      simp only [hk] at h
      by_cases hsig : tok.sig = .hmac tok.alg key tok.payload
      · rw [if_pos hsig] at h
        by_cases hexp : now < tok.payload.ExpiresAt * nsPerSec
        · rw [if_pos hexp] at h
          by_cases hnbf : now < tok.payload.NotBefore * nsPerSec
          · rw [if_pos hnbf] at h
            exact Except.noConfusion h
          · rw [if_neg hnbf] at h
            injection h with h'
            subst h'; rfl
        · rw [if_neg hexp] at h
          exact Except.noConfusion h
      · rw [if_neg hsig] at h
        exact Except.noConfusion h

/-- An error that is not a domain error is classified Internal by
MapError. -/
theorem mapError_of_not_domain (e : GoErr) (he : isDomainError e = false) :
    (MapError e).code = .internal := by
  cases e <;> simp_all [isDomainError, MapError]

/-- Validating a token produced by signToken with the same secret,
at a moment before its expiry and not before its not-before, succeeds
and returns the embedded TokenClaims: the user id and the zero-valued
TokenID. -/
theorem validate_signToken_ok (user : User) (t : Nat) (secret : GoBytes) (d : Nat)
    (jti : String) (now : Nat)
    (hexp : now < numericDate (t + d) * nsPerSec)
    (hnbf : numericDate t * nsPerSec ≤ now) :
    ValidateToken (signToken user t secret d jti) secret now = .ok ⟨user.ID, ""⟩ := by
  simp [ValidateToken, jwtParseWithClaims, signToken, jwtKeyfunc, JwtAlg.isHMAC,
    hexp, Nat.not_lt.mpr hnbf]

/-! Claim theorems. -/

/-- C1: the spec claims that login with a stored user's email and the
correct plaintext password returns a token pair.  Evaluating the code
at such an input refutes this: `Login` runs
`user.Password.CompareHash(params.Password)`, whose body hands the
*argument* (the request plaintext) to
`bcrypt.CompareHashAndPassword` in the hashed-password position, so
bcrypt rejects the plaintext as not being a bcrypt hash and login
fails even though the credential matches. -/
theorem login_correct_password_returns_error :
    Login db1 jwt1 { Email := "alice@example.com", Password := "password123" }
        0 "jti-a" "jti-r" = .error (.bcrypt .notBcryptHash) ∧
    (MapError (.bcrypt .notBcryptHash)).code = .internal := by
  constructor
  · rfl
  · rfl

/-- C2 counterexample: at a concrete stored user and a wrong password
the login use case does return an error and no token pair, but the
error is bcrypt's own error value, which does not implement the
DomainError interface, and the transport boundary classifies it
Internal — not Unauthenticated as claimed. -/
theorem login_wrong_password_not_unauthenticated_cx :
    Login db1 jwt1 { Email := "alice@example.com", Password := "wrongpassword" }
        0 "jti-a" "jti-r" = .error (.bcrypt .notBcryptHash) ∧
    isDomainError (.bcrypt .notBcryptHash) = false ∧
    (MapError (.bcrypt .notBcryptHash)).code = .internal ∧
    ConnectCode.internal ≠ ConnectCode.unauthenticated := by
  refine ⟨rfl, rfl, rfl, by decide⟩

/-- C2 amended: for every store and request whose email lookup
succeeds, login returns an error and never a token pair; the error is
exactly the bcrypt comparison error, propagated unchanged by the use
case, and it carries no domain classification, so the boundary maps it
to Internal rather than Unauthenticated. -/
theorem login_password_error_unclassified (db : Db) (j : JWTService)
    (params : LoginRequest) (createTime : Nat) (jtiAccess jtiRefresh : String)
    (u : User) (hFound : repoGetUserByEmail db params.Email = .ok u) :
    Login db j params createTime jtiAccess jtiRefresh = .error (.bcrypt .notBcryptHash) ∧
    PasswordCompareHash u.Password (.raw params.Password) = some (.bcrypt .notBcryptHash) ∧
    isDomainError (.bcrypt .notBcryptHash) = false ∧
    (MapError (.bcrypt .notBcryptHash)).code = .internal := by
  have hcmp : PasswordCompareHash u.Password (.raw params.Password) =
      some (.bcrypt .notBcryptHash) := rfl
  refine ⟨?_, hcmp, rfl, rfl⟩
  unfold Login
  rw [hFound]
  rfl

/-- C2 witness: the amended theorem applied to the concrete store. -/
theorem login_password_error_unclassified_witness :
    Login db1 jwt1 { Email := "alice@example.com", Password := "hunter2abc" }
        0 "jti-a" "jti-r" = .error (.bcrypt .notBcryptHash) ∧
    PasswordCompareHash user1.Password (.raw "hunter2abc") = some (.bcrypt .notBcryptHash) ∧
    isDomainError (.bcrypt .notBcryptHash) = false ∧
    (MapError (.bcrypt .notBcryptHash)).code = .internal :=
  login_password_error_unclassified db1 jwt1
    { Email := "alice@example.com", Password := "hunter2abc" } 0 "jti-a" "jti-r"
    user1 rfl

/-- C9 counterexample: a 7-byte password is rejected with the claimed
message, but the error is a bare `errors.New` value with no domain
classification; the boundary maps it to Internal, not InvalidArgument
as claimed. -/
theorem validate_short_password_not_invalidArgument_cx :
    PasswordValidate (.raw "short12") =
      some (.errorsNew "password must be at least 8 characters long") ∧
    isDomainError (.errorsNew "password must be at least 8 characters long") = false ∧
    (MapError (.errorsNew "password must be at least 8 characters long")).code = .internal ∧
    ConnectCode.internal ≠ ConnectCode.invalidArgument := by
  refine ⟨rfl, rfl, rfl, by decide⟩

/-- C9 amended: Password.Validate rejects exactly the plaintexts of
byte length below 8, with the message "password must be at least 8
characters long" ("short12" fails, "exactly8" passes), but the error
is an unclassified `errors.New` value that the transport boundary maps
to Internal, not InvalidArgument. -/
theorem password_validate_behavior :
    (∀ s : String, PasswordValidate (.raw s) =
      if s.utf8ByteSize < 8 then
        some (.errorsNew "password must be at least 8 characters long")
      else none) ∧
    PasswordValidate (.raw "short12") =
      some (.errorsNew "password must be at least 8 characters long") ∧
    PasswordValidate (.raw "exactly8") = none ∧
    (MapError (.errorsNew "password must be at least 8 characters long")).code =
      .internal := by
  refine ⟨fun s => rfl, by decide, by decide, rfl⟩

/-- C10: MapError keeps the code of any error implementing the
DomainError interface, maps every other error to Internal, and — for
the errors this program constructs (domain errors built by the five
constructors, and unclassified library errors) — always lands in the
five-valued taxonomy. -/
theorem mapError_classification :
    (∀ code msg, (MapError (.domain code msg)).code = code) ∧
    (∀ e : GoErr, isDomainError e = false → (MapError e).code = .internal) ∧
    (∀ e : GoErr, isDomainError e = false ∨ constructedDomainError e →
      (MapError e).code ∈ taxonomyCodes) := by
  refine ⟨fun code msg => rfl, fun e he => ?_, fun e he => ?_⟩
  · cases e <;> simp_all [isDomainError, MapError]
  · rcases he with he | ⟨msg, h⟩
    · cases e <;> simp_all [isDomainError, MapError, taxonomyCodes]
    · rcases h with h | h | h | h | h <;> subst h <;>
        simp [MapError, NewNotFoundError, NewAlreadyExistsError, NewUnauthorizedError,
          NewInvalidData, NewInternalError, taxonomyCodes]

/-- C10 witness: the classification theorem at concrete errors — a
raw bcrypt error maps to Internal, and a constructed NotFound domain
error keeps its code inside the taxonomy. -/
theorem mapError_classification_witness :
    (MapError (.domain .notFound "user not found")).code = .notFound ∧
    (MapError (.bcrypt .mismatch)).code = .internal ∧
    (MapError (NewNotFoundError "user not found")).code ∈ taxonomyCodes :=
  ⟨mapError_classification.1 .notFound "user not found",
   mapError_classification.2.1 (.bcrypt .mismatch) rfl,
   mapError_classification.2.2 (NewNotFoundError "user not found")
     (Or.inr ⟨"user not found", Or.inl rfl⟩)⟩

/-- C3: token round-trip.  For every token-service configuration and
user, the access token of GenerateToken verifies against the access
secret — at any moment after the shared creation instant and before
the access expiry — and returns claims carrying the issued user's ID;
symmetrically for the refresh token against the refresh secret. -/
theorem generate_validate_roundtrip (j : JWTService) (user : User) (t : Nat)
    (jtiAccess jtiRefresh : String) (now : Nat)
    (hA : now < numericDate (t + j.accessExpiresIn) * nsPerSec)
    (hR : now < numericDate (t + j.refreshExpiresIn) * nsPerSec)
    (hnbf : numericDate t * nsPerSec ≤ now) :
    ∃ pair c1 c2,
      GenerateToken j user t jtiAccess jtiRefresh = .ok pair ∧
      ValidateToken pair.AccessToken j.accessSecret now = .ok c1 ∧ c1.UserID = user.ID ∧
      ValidateToken pair.RefreshToken j.refreshSecret now = .ok c2 ∧ c2.UserID = user.ID := by
  refine ⟨_, ⟨user.ID, ""⟩, ⟨user.ID, ""⟩, rfl, ?_, rfl, ?_, rfl⟩
  · exact validate_signToken_ok user t j.accessSecret j.accessExpiresIn jtiAccess now hA hnbf
  · exact validate_signToken_ok user t j.refreshSecret j.refreshExpiresIn jtiRefresh now hR hnbf

/-- C3 witness: the round-trip at the wired configuration, validated
at the creation instant. -/
theorem generate_validate_roundtrip_witness :
    ∃ pair c1 c2,
      GenerateToken jwt1 user1 0 "jti-a1" "jti-r1" = .ok pair ∧
      ValidateToken pair.AccessToken jwt1.accessSecret 0 = .ok c1 ∧ c1.UserID = user1.ID ∧
      ValidateToken pair.RefreshToken jwt1.refreshSecret 0 = .ok c2 ∧ c2.UserID = user1.ID :=
  generate_validate_roundtrip jwt1 user1 0 "jti-a1" "jti-r1" 0
    (by decide) (by decide) (by decide)

/-- C4 counterexample: a token whose signature bytes are not a valid
MAC under the supplied secret (e.g. a flipped signature byte) is
rejected, but the error ValidateToken returns is the JWT library's
ErrTokenSignatureInvalid value, which carries no domain classification
and is mapped to Internal at the boundary — not InvalidArgument as
claimed. -/
theorem validate_flipped_signature_not_invalidArgument_cx :
    ValidateToken (.wellFormed ⟨.HS256, payloadLive, .other 7⟩) [1, 2, 3] 5 =
      .error (.jwtErr .tokenSignatureInvalid) ∧
    isDomainError (.jwtErr .tokenSignatureInvalid) = false ∧
    (MapError (.jwtErr .tokenSignatureInvalid)).code = .internal ∧
    ConnectCode.internal ≠ ConnectCode.invalidArgument := by
  refine ⟨rfl, rfl, rfl, by decide⟩

/-- C4 amended: on every verification failure — malformed input, a
non-HMAC algorithm in the header, an invalid signature, or a temporal
claim failure — ValidateToken returns a non-nil error, but that error
is the JWT library's wrapped error, which does not implement the
DomainError interface and is classified Internal (not InvalidArgument)
at the boundary; in the non-HMAC case the library error wraps the
InvalidArgument domain error citing the algorithm name produced by the
keyfunc. -/
theorem validate_failures_library_errors :
    (∀ ts secret now e, ValidateToken ts secret now = .error e →
      isDomainError e = false ∧ (MapError e).code = .internal) ∧
    (∀ tok : JwtToken, ∀ secret now, tok.alg.isHMAC = false →
      ValidateToken (.wellFormed tok) secret now =
        .error (.jwtWrap .tokenUnverifiable
          (NewInvalidData ("unexpected signing method: " ++ jwtAlgName tok.alg)))) := by
  constructor
  · intro ts secret now e h
    unfold ValidateToken at h
    cases hp : jwtParseWithClaims ts secret now with
    | error pe =>
      rw [hp] at h
      injection h with h'
      subst h'
      have hd := jwtParse_error_not_domain ts secret now pe hp
      exact ⟨hd, mapError_of_not_domain pe hd⟩
    | ok p =>
      obtain ⟨tok, valid⟩ := p
      have hv := jwtParse_ok_valid ts secret now (tok, valid) hp
      simp only at hv
      subst hv
      rw [hp] at h
      exact Except.noConfusion h
  · intro tok secret now halg
    simp [ValidateToken, jwtParseWithClaims, jwtKeyfunc, halg]

/-- C4 witness: the amended theorem applied to an expired token with a
valid signature, and to a token declaring RS256. -/
theorem validate_failures_library_errors_witness :
    (isDomainError (.jwtWrap .tokenInvalidClaims (.jwtErr .tokenExpired)) = false ∧
      (MapError (.jwtWrap .tokenInvalidClaims (.jwtErr .tokenExpired))).code = .internal) ∧
    ValidateToken (.wellFormed ⟨.RS256, payloadLive, .other 3⟩) [1, 2, 3] 5 =
      .error (.jwtWrap .tokenUnverifiable
        (NewInvalidData ("unexpected signing method: " ++ jwtAlgName .RS256))) :=
  ⟨validate_failures_library_errors.1
      (.wellFormed ⟨.HS256, payloadExpired, .hmac .HS256 [1, 2, 3] payloadExpired⟩)
      [1, 2, 3] 5 (.jwtWrap .tokenInvalidClaims (.jwtErr .tokenExpired)) rfl,
   validate_failures_library_errors.2 ⟨.RS256, payloadLive, .other 3⟩ [1, 2, 3] 5 rfl⟩

/-- C5 counterexample: comparing a hash against the original plaintext
with one character appended does fail, but with bcrypt's own mismatch
error, which carries no domain classification and maps to Internal at
the boundary — not Unauthenticated as claimed. -/
theorem compare_mismatch_not_unauthenticated_cx :
    PasswordCompareHash (.raw "password1x") (PasswordHash (.raw "password1") 0).1 =
      some (.bcrypt .mismatch) ∧
    isDomainError (.bcrypt .mismatch) = false ∧
    (MapError (.bcrypt .mismatch)).code = .internal ∧
    ConnectCode.internal ≠ ConnectCode.unauthenticated := by
  refine ⟨by decide, rfl, rfl, by decide⟩

/-- C5 amended: for every valid plaintext (length at least 8 bytes)
and any two distinct salts, hashing then comparing the original
succeeds; comparing the original with an extra character appended
fails with bcrypt's mismatch error (which carries no domain
classification and maps to Internal, not Unauthenticated); and the two
hash outputs differ while both verify against the original. -/
theorem hash_salting_compare_props (pw : String) (hlen : 8 ≤ pw.utf8ByteSize)
    (s1 s2 : Nat) (hs : s1 ≠ s2) :
    PasswordValidate (.raw pw) = none ∧
    PasswordCompareHash (.raw pw) (PasswordHash (.raw pw) s1).1 = none ∧
    PasswordCompareHash (.raw (pw ++ "x")) (PasswordHash (.raw pw) s1).1 =
      some (.bcrypt .mismatch) ∧
    isDomainError (.bcrypt .mismatch) = false ∧
    (MapError (.bcrypt .mismatch)).code = .internal ∧
    (PasswordHash (.raw pw) s1).1 ≠ (PasswordHash (.raw pw) s2).1 ∧
    PasswordCompareHash (.raw pw) (PasswordHash (.raw pw) s2).1 = none := by
  have hx : pw ≠ pw ++ "x" := by
    intro hcon
    have h2 := congrArg String.length hcon
    rw [String.length_append] at h2
    have hxlen : ("x" : String).length = 1 := rfl
    rw [hxlen] at h2
    omega
  refine ⟨?_, ?_, ?_, rfl, rfl, ?_, ?_⟩
  · simp [PasswordValidate, goStrLen, Nat.not_lt.mpr hlen]
  · simp [PasswordCompareHash, PasswordHash, bcryptGenerateFromPassword,
      bcryptCompareHashAndPassword]
  · simp [PasswordCompareHash, PasswordHash, bcryptGenerateFromPassword,
      bcryptCompareHashAndPassword, hx]
  · simp [PasswordHash, bcryptGenerateFromPassword, hs]
  · simp [PasswordCompareHash, PasswordHash, bcryptGenerateFromPassword,
      bcryptCompareHashAndPassword]

/-- C5 witness: the amended theorem at the plaintext "password1" and
salts 0 and 1. -/
theorem hash_salting_compare_props_witness :
    PasswordValidate (.raw "password1") = none ∧
    PasswordCompareHash (.raw "password1") (PasswordHash (.raw "password1") 0).1 = none ∧
    PasswordCompareHash (.raw ("password1" ++ "x")) (PasswordHash (.raw "password1") 0).1 =
      some (.bcrypt .mismatch) ∧
    isDomainError (.bcrypt .mismatch) = false ∧
    (MapError (.bcrypt .mismatch)).code = .internal ∧
    (PasswordHash (.raw "password1") 0).1 ≠ (PasswordHash (.raw "password1") 1).1 ∧
    PasswordCompareHash (.raw "password1") (PasswordHash (.raw "password1") 1).1 = none :=
  hash_salting_compare_props "password1" (by decide) 0 1 (by decide)

/-- C6 counterexample: at a concrete issued pair, successful
verification returns TokenClaims whose TokenID is the empty string,
while the fresh per-token unique id lives only in the token's
registered jti claim — the returned token identifier is not the
generated one. -/
theorem validate_returns_empty_tokenID_cx :
    GenerateToken jwt1 user1 0 "jti-access" "jti-refresh" =
      .ok { AccessToken := signToken user1 0 jwt1.accessSecret jwt1.accessExpiresIn "jti-access",
            RefreshToken := signToken user1 0 jwt1.refreshSecret jwt1.refreshExpiresIn "jti-refresh",
            ExpiresIn := 1800 } ∧
    ValidateToken (signToken user1 0 jwt1.accessSecret jwt1.accessExpiresIn "jti-access")
        jwt1.accessSecret 0 = .ok { UserID := "user-1", TokenID := "" } ∧
    tokenJti (signToken user1 0 jwt1.accessSecret jwt1.accessExpiresIn "jti-access") =
      some "jti-access" ∧
    ("" : String) ≠ "jti-access" := by
  refine ⟨rfl, rfl, rfl, by decide⟩

/-- C6 amended: on successful verification ValidateToken returns the
user identifier together with an empty TokenID — the per-token unique
id generated fresh at signing is stored only in the registered jti
claim, is distinct between the access and refresh tokens of a pair
whenever the UUID generator yields distinct values, and is not
returned to the caller. -/
theorem validate_claims_tokenID_empty (j : JWTService) (user : User) (t : Nat)
    (jtiAccess jtiRefresh : String) (now : Nat)
    (hA : now < numericDate (t + j.accessExpiresIn) * nsPerSec)
    (hnbf : numericDate t * nsPerSec ≤ now)
    (hjti : jtiAccess ≠ jtiRefresh) :
    ∃ pair, GenerateToken j user t jtiAccess jtiRefresh = .ok pair ∧
      ValidateToken pair.AccessToken j.accessSecret now = .ok ⟨user.ID, ""⟩ ∧
      tokenJti pair.AccessToken = some jtiAccess ∧
      tokenJti pair.RefreshToken = some jtiRefresh ∧
      tokenJti pair.AccessToken ≠ tokenJti pair.RefreshToken := by
  refine ⟨_, rfl, ?_, rfl, rfl, ?_⟩
  · exact validate_signToken_ok user t j.accessSecret j.accessExpiresIn jtiAccess now hA hnbf
  · simp [tokenJti, GenerateToken, signToken, hjti]

/-- C6 witness: the amended theorem at the wired configuration with
distinct jti inputs. -/
theorem validate_claims_tokenID_empty_witness :
    ∃ pair, GenerateToken jwt1 user1 0 "jti-a2" "jti-r2" = .ok pair ∧
      ValidateToken pair.AccessToken jwt1.accessSecret 0 = .ok ⟨user1.ID, ""⟩ ∧
      tokenJti pair.AccessToken = some "jti-a2" ∧
      tokenJti pair.RefreshToken = some "jti-r2" ∧
      tokenJti pair.AccessToken ≠ tokenJti pair.RefreshToken :=
  validate_claims_tokenID_empty jwt1 user1 0 "jti-a2" "jti-r2" 0
    (by decide) (by decide) (by decide)

/-- C7: a registration whose entity validation passes but whose email
already has a row in the store fails with the AlreadyExists-classified
domain error — the unique-violation PgError (SQLSTATE 23505) raised by
the insert is recognized by isDuplicateKeyError and reclassified, and
the boundary maps it to AlreadyExists, not Internal. -/
theorem register_duplicate_email_alreadyExists
    (mailParseAddress : String → Option GoErr) (db : Db) (params : RegisterRequest)
    (uuid : String) (now salt : Nat) (newId : String) (dbNow : Nat)
    (hEmail : mailParseAddress params.Email = none)
    (hPw : PasswordValidate (.raw params.Password) = none)
    (hPhone : PhoneValidate params.Phone = none)
    (hDup : db.any (fun u => u.email = params.Email) = true) :
    RegisterUser mailParseAddress db params uuid now salt newId dbNow =
      (db, .error (NewAlreadyExistsError
        ("user with email " ++ params.Email ++ " already exists"))) ∧
    handlerRegister mailParseAddress db params uuid now salt newId dbNow =
      (db, .error ⟨.alreadyExists,
        NewAlreadyExistsError ("user with email " ++ params.Email ++ " already exists")⟩) ∧
    ConnectCode.alreadyExists ≠ ConnectCode.internal := by
  have hreg : RegisterUser mailParseAddress db params uuid now salt newId dbNow =
      (db, .error (NewAlreadyExistsError
        ("user with email " ++ params.Email ++ " already exists"))) := by
    simp [RegisterUser, NewUser, userValidate, hEmail, hPw, hPhone, repoCreateUser,
      PasswordHash, bcryptGenerateFromPassword, queriesInsertUser, hDup,
      isDuplicateKeyError, NewAlreadyExistsError]
  refine ⟨hreg, ?_, by decide⟩
  simp [handlerRegister, hreg, MapError, NewAlreadyExistsError]

/-- C7 witness: registering alice's email against the store already
holding her row. -/
theorem register_duplicate_email_alreadyExists_witness :
    RegisterUser (fun _ => none) db1
      { FirstName := "Bob", LastName := "Builder", Email := "alice@example.com",
        Phone := "", Password := "password123" } "uuid-new" 5 7 "id-new" 6 =
      (db1, .error (NewAlreadyExistsError
        ("user with email " ++ "alice@example.com" ++ " already exists"))) ∧
    handlerRegister (fun _ => none) db1
      { FirstName := "Bob", LastName := "Builder", Email := "alice@example.com",
        Phone := "", Password := "password123" } "uuid-new" 5 7 "id-new" 6 =
      (db1, .error ⟨.alreadyExists,
        NewAlreadyExistsError ("user with email " ++ "alice@example.com" ++ " already exists")⟩) ∧
    ConnectCode.alreadyExists ≠ ConnectCode.internal :=
  register_duplicate_email_alreadyExists (fun _ => none) db1
    { FirstName := "Bob", LastName := "Builder", Email := "alice@example.com",
      Phone := "", Password := "password123" } "uuid-new" 5 7 "id-new" 6
    rfl (by decide) (by decide) (by decide)

/-- C8 counterexample: logging in with an email that matches no stored
user does fail, but the repository wraps the driver's no-rows error as
an Internal-classified error ("failed to get user by email: ..."), so
the error reaching the boundary is classified Internal — not NotFound
as claimed. -/
theorem login_unknown_email_not_notFound_cx :
    Login [] jwt1 { Email := "ghost@example.com", Password := "password123" }
        0 "jti-a" "jti-r" =
      .error (NewInternalError "failed to get user by email: no rows in result set") ∧
    (MapError (NewInternalError "failed to get user by email: no rows in result set")).code =
      .internal ∧
    ConnectCode.internal ≠ ConnectCode.notFound := by
  refine ⟨rfl, rfl, by decide⟩

/-- C8 amended: for every store and login request whose email matches
no row, the repository returns its own error — the Internal-classified
wrap of pgx.ErrNoRows — and the login use case propagates exactly that
error value unchanged; the boundary classifies it Internal, not
NotFound. -/
theorem login_unknown_email_internal (db : Db) (j : JWTService) (params : LoginRequest)
    (createTime : Nat) (jtiAccess jtiRefresh : String)
    (h : db.find? (fun u => u.email = params.Email) = none) :
    repoGetUserByEmail db params.Email =
      .error (NewInternalError "failed to get user by email: no rows in result set") ∧
    Login db j params createTime jtiAccess jtiRefresh =
      .error (NewInternalError "failed to get user by email: no rows in result set") ∧
    (MapError (NewInternalError "failed to get user by email: no rows in result set")).code =
      .internal ∧
    ConnectCode.internal ≠ ConnectCode.notFound := by
  have hrepo : repoGetUserByEmail db params.Email =
      .error (NewInternalError "failed to get user by email: no rows in result set") := by
    unfold repoGetUserByEmail queriesGetUserByEmail
    rw [h]
    rfl
  refine ⟨hrepo, ?_, rfl, by decide⟩
  unfold Login
  rw [hrepo]

/-- C8 witness: the amended theorem at the empty store. -/
theorem login_unknown_email_internal_witness :
    repoGetUserByEmail [] "nobody@example.com" =
      .error (NewInternalError "failed to get user by email: no rows in result set") ∧
    Login [] jwt1 { Email := "nobody@example.com", Password := "password123" }
        0 "jti-a3" "jti-r3" =
      .error (NewInternalError "failed to get user by email: no rows in result set") ∧
    (MapError (NewInternalError "failed to get user by email: no rows in result set")).code =
      .internal ∧
    ConnectCode.internal ≠ ConnectCode.notFound :=
  login_unknown_email_internal [] jwt1
    { Email := "nobody@example.com", Password := "password123" } 0 "jti-a3" "jti-r3" rfl

end GoShop
